import Mathlib

/-!
Verification of the Mercantile-Bank-Scraper repository against its
natural-language specification.

The whole scraping core lives in `src/src/Scraper.js`: module-level
environment-variable validation (lines 4-20), the `Scraper` class with
`constructor`, `log`, `initialize`, `login`, `close`, and the `main`
driver (lines 176-201) that is invoked at module load.

The embedding below models each JavaScript function as a pure Lean
function.  Asynchronous browser primitives (puppeteer calls) are modelled
through explicit environments (`InitEnv`, `PageEnv`) that say, for each
primitive the code may invoke, whether it resolves or rejects and with
which error message.  Every observable effect (browser-driving action,
debug log, console output) is recorded in an event trace, and thrown
exceptions become an explicit `Outcome`.
-/

namespace MercantileScraper

/-- The module-level `credentials` object of `Scraper.js` (lines 5-9):
three opaque strings read from the environment. -/
structure Credentials where
  id : String
  password : String
  code : String
deriving DecidableEq

/-- The puppeteer launch options built in `initialize` (lines 39-48).
The base object is `\x7bheadless: this.headless, defaultViewport: null,
args: ['--start-maximized']\x7d`; when `this.debug` is set, the object
spread overrides `headless` to `false` and adds `devtools: true` and
`slowMo: 50`.  `defaultViewport: null` is a constant in both branches and
is omitted. -/
structure LaunchOptions where
  headless : Bool
  devtools : Bool
  slowMo : Option Nat
  args : List String
deriving DecidableEq

/-- `launchOptions` as computed by `initialize` (lines 39-48) from the
debug flag and the configured headless flag. -/
def launchOptions (debug : Bool) (headless : Bool) : LaunchOptions :=
  if debug then
    { headless := false, devtools := true, slowMo := some 50,
      args := ["--start-maximized"] }
  else
    { headless := headless, devtools := false, slowMo := none,
      args := ["--start-maximized"] }

/-- A browser-driving action issued against puppeteer / the page. -/
inductive Action where
  | launch (opts : LaunchOptions)
  | newPage
  | setDefaultTimeout (ms : Nat)
  | goto (url : String) (waitUntil : String) (timeoutMs : Nat)
  | typeText (selector : String) (text : String) (delayMs : Nat)
  | click (selector : String)
  | waitForNavigation (waitUntil : String)
  | screenshot (path : String)
  | closeBrowser
deriving DecidableEq

/-- An observable event of a run: a browser-driving action, a `[DEBUG]`
log line written by `Scraper.log`, or console output from `main` and the
module-level validation. -/
inductive Event where
  | act (a : Action)
  | debugLog (msg : String)
  | consoleLog (msg : String)
  | consoleError (msg : String)
deriving DecidableEq

/-- `Scraper.log` (lines 31-35): writes the message to the console only
when debug mode is on. -/
def logEv (debug : Bool) (msg : String) : List Event :=
  if debug then [Event.debugLog msg] else []

/-- Result of an `async` JavaScript method: normal resolution or a
thrown/rejected error carrying its message. -/
inductive Outcome where
  | ok
  | err (msg : String)
deriving DecidableEq

/-- The options object accepted by the `Scraper` constructor (line 23).
`none` models an absent (undefined) property. -/
structure ScraperOptions where
  debug : Option Bool := none
  headless : Option Bool := none

/-- The live browser process owned by a scraper; `closed` records whether
`browser.close()` has completed. -/
structure BrowserHandle where
  closed : Bool
deriving DecidableEq

/-- The mutable fields of a `Scraper` instance (constructor, lines
23-29): `this.browser` and `this.page` start as `null`,
`this.debug = options.debug || false`, and
`this.headless = options.headless !== false` (default `true`). -/
structure Scraper where
  browser : Option BrowserHandle
  page : Option Unit
  debug : Bool
  headless : Bool
deriving DecidableEq

/-- The `Scraper` constructor (lines 23-29), state part. -/
def Scraper.new (o : ScraperOptions) : Scraper :=
  { browser := none, page := none,
    debug := o.debug.getD false,
    headless := o.headless != some false }

/-- The `Scraper` constructor including its `this.log('Debug mode
enabled')` call (line 28). -/
def Scraper.newRun (o : ScraperOptions) : Scraper × List Event :=
  (Scraper.new o, logEv (Scraper.new o).debug "Debug mode enabled")

/-- Behaviour of the external world during `initialize`: for each
fallible puppeteer primitive, `none` means the awaited promise resolves
and `some msg` means it rejects with an error whose message is `msg`. -/
structure InitEnv where
  launchResult : Option String
  newPageResult : Option String
  screenshotResult : String → Option String

/-- Rendering of the launch options for the
`this.log('Launch options:', JSON.stringify(launchOptions, null, 2))`
line (line 50).  The exact text is irrelevant to every claim; what
matters is that it is a function of the options alone. -/
def launchOptionsString (o : LaunchOptions) : String :=
  "headless: " ++ (if o.headless then "true" else "false") ++
  ", devtools: " ++ (if o.devtools then "true" else "false") ++
  (match o.slowMo with
   | none => ""
   | some n => ", slowMo: " ++ toString n) ++
  ", args: " ++ String.intercalate "," o.args

/-- The `catch` block of `initialize` (lines 82-93): build and log the
error message, take a `debug-error.png` screenshot when debug is on and
a page exists (if that screenshot itself rejects, its error replaces the
original one, since the `await` is not guarded), then rethrow. -/
def initCatch (s : Scraper) (evs : List Event) (env : InitEnv) (m : String) :
    Scraper × List Event × Outcome :=
  let evs := evs ++ logEv s.debug ("Error during initialization: " ++ m)
  if s.debug && s.page.isSome then
    match env.screenshotResult "debug-error.png" with
    | some m2 =>
        (s, evs ++ [Event.act (Action.screenshot "debug-error.png")], Outcome.err m2)
    | none =>
        (s, evs ++ [Event.act (Action.screenshot "debug-error.png")] ++
            logEv s.debug "Error screenshot saved as debug-error.png",
         Outcome.err m)
  else
    (s, evs, Outcome.err m)

/-- `Scraper.initialize` (lines 37-94): build launch options, launch the
browser, open a page, set the page's default action timeout to 30000 ms,
and (in debug mode) register logging handlers on the page.  A rejection
of `puppeteer.launch` or `browser.newPage` is handled by the `catch`
block.  Registering the debug event handlers (lines 64-81) installs
callbacks and performs no browser-driving action itself. -/
def Scraper.initBrowser (s : Scraper) (env : InitEnv) :
    Scraper × List Event × Outcome :=
  let opts := launchOptions s.debug s.headless
  let e0 := logEv s.debug "Initializing browser..." ++
            logEv s.debug ("Launch options: " ++ launchOptionsString opts) ++
            [Event.act (Action.launch opts)]
  match env.launchResult with
  | some m => initCatch s e0 env m
  | none =>
    let s1 : Scraper := { s with browser := some { closed := false } }
    let e1 := e0 ++ logEv s.debug "Browser launched successfully" ++
              [Event.act Action.newPage]
    match env.newPageResult with
    | some m => initCatch s1 e1 env m
    | none =>
      let s2 : Scraper := { s1 with page := some () }
      let e2 := e1 ++ logEv s.debug "New page created" ++
                [Event.act (Action.setDefaultTimeout 30000)]
      (s2, e2, Outcome.ok)

/-- The login-page URL hard-coded at line 105. -/
def loginUrl : String := "https://start.telebank.co.il/login/?bank=m"

/-- The submit-button selector hard-coded at line 140. -/
def submitSelector : String := ".login-form button[type=\"submit\"]"

/-- The error message thrown by `login` when no page exists (line 98). -/
def pageNotInitMsg : String := "Page not initialized. Call initialize() first."

/-- Behaviour of the external world (the remote banking site and the
browser) during `login`.  Each field gives the resolution of one kind of
awaited page primitive; `typeText` and `screenshot` outcomes may depend
on the selector / path, mirroring that the page decides failure by which
element or capture is involved (puppeteer errors are about selectors and
timeouts, not about the text argument).  `authenticated` records whether
the remote site actually accepted the submitted credentials; it is
observable only in the rendered page content, which `Scraper.js` never
reads, so no definition below consumes it. -/
structure PageEnv where
  gotoResult : Option String
  typeResult : String → Option String
  clickResult : Option String
  waitNavResult : Option String
  screenshotResult : String → Option String
  authenticated : Bool

/-- One statement of the `try` body of `login`: an awaited page
primitive or a `this.log` call. -/
inductive Op where
  | goto (url : String) (waitUntil : String) (timeoutMs : Nat)
  | typeText (selector : String) (text : String) (delayMs : Nat)
  | click (selector : String)
  | waitForNavigation (waitUntil : String)
  | screenshot (path : String)
  | logOp (msg : String)
deriving DecidableEq

/-- The straight-line `try` body of `login` (lines 103-152), in source
order: navigate to the login page with a 60000 ms timeout waiting for
`networkidle2`; optionally capture `debug-login-page.png`; type the id,
password and security code, each with `\x7bdelay: 50\x7d`; optionally
capture `debug-credentials-entered.png`; click the submit button; wait
for navigation; optionally capture `debug-after-login.png`.  The
debug-only screenshot statements are guarded by `if (this.debug)` in the
source. -/
def loginOps (debug : Bool) (c : Credentials) : List Op :=
  [Op.logOp "Navigating to login page...",
   Op.goto loginUrl "networkidle2" 60000,
   Op.logOp "Login page loaded"] ++
  (if debug then
    [Op.screenshot "debug-login-page.png",
     Op.logOp "Screenshot saved as debug-login-page.png"]
   else []) ++
  [Op.logOp "Entering credentials...",
   Op.typeText "input#tzId" c.id 50,
   Op.logOp "Entered ID",
   Op.typeText "input#tzPassword" c.password 50,
   Op.logOp "Entered password",
   Op.typeText "input#aidnum" c.code 50,
   Op.logOp "Entered code",
   Op.logOp "Successfully entered all credentials"] ++
  (if debug then
    [Op.screenshot "debug-credentials-entered.png",
     Op.logOp "Screenshot after entering credentials saved as debug-credentials-entered.png"]
   else []) ++
  [Op.logOp "Clicking login button...",
   Op.click submitSelector,
   Op.logOp "Login button clicked",
   Op.logOp "Waiting for navigation...",
   Op.waitForNavigation "networkidle2",
   Op.logOp "Navigation complete"] ++
  (if debug then
    [Op.screenshot "debug-after-login.png",
     Op.logOp "Screenshot after login saved as debug-after-login.png"]
   else [])

/-- Whether an awaited statement rejects under the given environment,
and with which message.  `this.log` never throws. -/
def opFails (env : PageEnv) : Op → Option String
  | Op.goto _ _ _ => env.gotoResult
  | Op.typeText sel _ _ => env.typeResult sel
  | Op.click _ => env.clickResult
  | Op.waitForNavigation _ => env.waitNavResult
  | Op.screenshot p => env.screenshotResult p
  | Op.logOp _ => none

/-- The events produced by attempting one statement (the attempt is
recorded even when the awaited promise then rejects). -/
def opEvent (debug : Bool) : Op → List Event
  | Op.goto u w t => [Event.act (Action.goto u w t)]
  | Op.typeText s v d => [Event.act (Action.typeText s v d)]
  | Op.click s => [Event.act (Action.click s)]
  | Op.waitForNavigation w => [Event.act (Action.waitForNavigation w)]
  | Op.screenshot p => [Event.act (Action.screenshot p)]
  | Op.logOp m => logEv debug m

/-- Sequential execution of a `try` body: statements run in order until
the first rejection, whose error aborts the rest (JavaScript `await`
semantics inside `try`). -/
def runOps (debug : Bool) (env : PageEnv) : List Op → List Event × Option String
  | [] => ([], none)
  | op :: rest =>
    match opFails env op with
    | some m => (opEvent debug op, some m)
    | none =>
      let r := runOps debug env rest
      (opEvent debug op ++ r.1, r.2)

/-- The `catch` block of `login` (lines 154-165): log `'Error during
login: ' + message`; when debug is on and a page exists, capture
`debug-error.png` (an unguarded `await`, so if the screenshot itself
rejects its error replaces the original); rethrow. -/
def loginCatch (s : Scraper) (env : PageEnv) (m : String) :
    List Event × Outcome :=
  let evs := logEv s.debug ("Error during login: " ++ m)
  if s.debug && s.page.isSome then
    match env.screenshotResult "debug-error.png" with
    | some m2 =>
        (evs ++ [Event.act (Action.screenshot "debug-error.png")], Outcome.err m2)
    | none =>
        (evs ++ [Event.act (Action.screenshot "debug-error.png")] ++
         logEv s.debug "Error screenshot saved as debug-error.png",
         Outcome.err m)
  else
    (evs, Outcome.err m)

/-- `Scraper.login` (lines 96-166).  If `this.page` is unset the method
logs and throws `'Page not initialized. Call initialize() first.'`
without touching the browser; otherwise it runs the `try` body and, on a
rejection, the `catch` block.  The source method assigns no instance
field, so the scraper state is unchanged and only the trace and outcome
are returned. -/
def Scraper.login (s : Scraper) (c : Credentials) (env : PageEnv) :
    List Event × Outcome :=
  if s.page.isNone then
    (logEv s.debug pageNotInitMsg, Outcome.err pageNotInitMsg)
  else
    match runOps s.debug env (loginOps s.debug c) with
    | (evs, none) => (evs, Outcome.ok)
    | (evs, some m) => (evs ++ (loginCatch s env m).1, (loginCatch s env m).2)

/-- `Scraper.close` (lines 168-172), state part: `if (this.browser)
await this.browser.close()`.  `Browser.close` resolves the shutdown of
the browser process; on an already-closed browser it resolves with no
further effect, so at the state level closing marks the handle closed
and the guard makes the call a no-op when no browser was ever
launched. -/
def Scraper.close (s : Scraper) : Scraper :=
  match s.browser with
  | none => s
  | some _ => { s with browser := some { closed := true } }

/-- `Scraper.close` including the browser-driving command it issues:
when `this.browser` is set, a `browser.close()` call is made. -/
def Scraper.closeRun (s : Scraper) : Scraper × List Event :=
  match s.browser with
  | none => (s, [])
  | some _ =>
      ({ s with browser := some { closed := true } },
       [Event.act Action.closeBrowser])

/-- Terminal status of the whole process for one run. -/
inductive MainOutcome where
  | completed
  | exited (code : Nat)
deriving DecidableEq

/-- The `main` driver (lines 176-201): construct a scraper with
`\x7bdebug: true, headless: false\x7d`, then
`try \x7b initialize; login; ... \x7d catch \x7b console.error; process.exit(1) \x7d
finally \x7b close \x7d`.  `process.exit(1)` terminates the Node.js
process synchronously: pending `finally` blocks of the async function do
not run.  Consequently the `finally` block, and with it
`scraper.close()`, is reached only when neither `initialize` nor `login`
threw.  The 30-second demonstration `setTimeout` adds no browser-driving
action.  `console.error('An error occurred:', error)` prints the caught
error after its fixed prefix. -/
def mainRun (c : Credentials) (ienv : InitEnv) (penv : PageEnv) :
    List Event × MainOutcome :=
  let s := Scraper.new { debug := some true, headless := some false }
  let e0 := logEv s.debug "Debug mode enabled"
  let ini := Scraper.initBrowser s ienv
  match ini.2.2 with
  | Outcome.err m =>
      (e0 ++ ini.2.1 ++ [Event.consoleError ("An error occurred: " ++ m)],
       MainOutcome.exited 1)
  | Outcome.ok =>
    let lg := Scraper.login ini.1 c penv
    match lg.2 with
    | Outcome.err m =>
        (e0 ++ ini.2.1 ++ lg.1 ++
           [Event.consoleError ("An error occurred: " ++ m)],
         MainOutcome.exited 1)
    | Outcome.ok =>
        (e0 ++ ini.2.1 ++ lg.1 ++
           [Event.consoleLog "Keeping browser open for 30 seconds...",
            Event.consoleLog "Closing browser..."] ++
           (Scraper.closeRun ini.1).2 ++
           [Event.consoleLog "Browser closed"],
         MainOutcome.completed)

/-- The required environment variables checked at module load
(line 12). -/
def requiredEnvVars : List String :=
  ["CREDENTIALS_ID", "CREDENTIALS_PASSWORD", "CREDENTIALS_CODE"]

/-- JavaScript truthiness of `!process.env[varName]`: an absent variable
(`undefined`) and the empty string are both falsy. -/
def envFalsy : Option String → Bool
  | none => true
  | some s => s == ""

/-- `missingVars` (line 13): the required variables whose value is
falsy. -/
def missingVars (pe : String → Option String) : List String :=
  requiredEnvVars.filter (fun v => envFalsy (pe v))

/-- The module-level `credentials` object (lines 5-9) as a function of
the process environment (an unset variable yields `undefined`, read back
as the empty string for the typed text). -/
def credentialsOf (pe : String → Option String) : Credentials :=
  { id := (pe "CREDENTIALS_ID").getD "",
    password := (pe "CREDENTIALS_PASSWORD").getD "",
    code := (pe "CREDENTIALS_CODE").getD "" }

/-- The whole module run (lines 4-201): validate the environment first;
when any required variable is missing, print the error lines and
`process.exit(1)` before any `Scraper` is constructed; otherwise run
`main()`. -/
def programRun (pe : String → Option String) (ienv : InitEnv) (penv : PageEnv) :
    List Event × MainOutcome :=
  if missingVars pe = [] then
    mainRun (credentialsOf pe) ienv penv
  else
    (Event.consoleError "Error: Missing required environment variables:" ::
       (missingVars pe).map (fun v => Event.consoleError ("- " ++ v)) ++
       [Event.consoleError "\nPlease copy .env.example to .env and fill in your credentials"],
     MainOutcome.exited 1)

/-- The browser-driving actions of a trace. -/
def actionsOf (evs : List Event) : List Action :=
  evs.filterMap (fun e => match e with
    | Event.act a => some a
    | _ => none)

/-- Whether an action is a browser launch. -/
def isLaunch : Action → Bool
  | Action.launch _ => true
  | _ => false

/-- Number of browser launches attempted in a trace. -/
def countLaunches (evs : List Event) : Nat :=
  (actionsOf evs).countP (fun a => isLaunch a)

/-- Whether an action is a page navigation (`page.goto`). -/
def isGoto : Action → Bool
  | Action.goto _ _ _ => true
  | _ => false

/-- Number of page navigations in a trace (each login attempt performs
exactly one, to the login URL). -/
def countGotos (evs : List Event) : Nat :=
  (actionsOf evs).countP (fun a => isGoto a)

/-- Whether a `try`-body statement is a page navigation. -/
def isGotoOp : Op → Bool
  | Op.goto _ _ _ => true
  | _ => false

/-- Whether an action is a `browser.close()` call. -/
def isCloseBrowser : Action → Bool
  | Action.closeBrowser => true
  | _ => false

/-- Number of `browser.close()` calls in a trace. -/
def countCloses (evs : List Event) : Nat :=
  (actionsOf evs).countP (fun a => isCloseBrowser a)

/-- Whether an action is a screenshot capture. -/
def isScreenshot : Action → Bool
  | Action.screenshot _ => true
  | _ => false

/-- The non-screenshot browser-driving actions of a trace. -/
def coreActions (evs : List Event) : List Action :=
  (actionsOf evs).filter (fun a => !isScreenshot a)

/-- Erase the credential payload of a typed-text action, keeping the
selector and pacing.  Typing is the one channel through which credential
values intentionally leave the program (into the bank's form). -/
def eraseAction : Action → Action
  | Action.typeText sel _ d => Action.typeText sel "" d
  | a => a

/-- Erase credential payloads throughout an event. -/
def eraseEvent : Event → Event
  | Event.act a => Event.act (eraseAction a)
  | e => e

/-- Erase the credential payload of a `try`-body statement. -/
def eraseOp : Op → Op
  | Op.typeText sel _ d => Op.typeText sel "" d
  | op => op

/-- Normalize launch actions to a fixed payload, for comparing action
sequences modulo the launch configuration. -/
def normLaunch : Action → Action
  | Action.launch _ => Action.launch (launchOptions false true)
  | a => a

/-- Action sequence of a trace with screenshots removed and launch
options normalized. -/
def coreNormActions (evs : List Event) : List Action :=
  (coreActions evs).map normLaunch

/-- A page environment in which every awaited page primitive resolves;
`b` is whether the remote site accepted the submitted credentials. -/
def allOkEnv (b : Bool) : PageEnv :=
  { gotoResult := none, typeResult := fun _ => none, clickResult := none,
    waitNavResult := none, screenshotResult := fun _ => none,
    authenticated := b }

/-- An initialization environment in which launch and page creation
resolve. -/
def initOkEnv : InitEnv :=
  { launchResult := none, newPageResult := none,
    screenshotResult := fun _ => none }

/-- An initialization environment in which `puppeteer.launch`
rejects. -/
def initLaunchFailEnv : InitEnv :=
  { launchResult := some "LaunchError: could not start browser",
    newPageResult := none, screenshotResult := fun _ => none }

/-- A page environment in which the initial navigation to the login page
times out and everything else resolves. -/
def gotoFailEnv : PageEnv :=
  { allOkEnv true with gotoResult := some "NavigationTimeout: exceeded" }

/-- A concrete credential triple used for closed-instance theorems. -/
def sampleCreds : Credentials :=
  { id := "123456789", password := "hunter2", code := "4321" }

/-- A scraper in the state produced by a successful `initialize`:
browser live, page open. -/
def readyScraper : Scraper :=
  { browser := some { closed := false }, page := some (),
    debug := false, headless := true }

/-! ## Extraction pipeline (spec-modelled)

Modelled from the spec: the repository's extraction pipeline — the
server-side extraction steps for the five data views (userAccounts,
accountDetails, debitAuthorizations, dashboardBalances, loansData)
documented in the repository README — is not under `src/`; only
`Scraper.js` and the README are.  The definitions below follow spec
§4.3: `runAll(session)` executes an ordered list of named extraction
steps against the one authenticated session, and each step's failure is
captured as that step's per-view error marker instead of being thrown. -/

/-- Modelled from the spec: per-view result of one extraction step — a
structured value or an explicit error marker (spec §4.3: errors "are
recorded per-view rather than thrown"). -/
inductive StepOutcome (V : Type) where
  | value (v : V)
  | errMark (e : String)
deriving DecidableEq

/-- Modelled from the spec: an extraction step is a named unit of work
mapping the session to a structured value or failing independently (spec
§3 "Extraction Step"). -/
structure ExtractionStep (S V : Type) where
  name : String
  run : S → Except String V

/-- Modelled from the spec: how one step's result is recorded in the
aggregate — successes as values, failures as that step's error
marker. -/
def recordStep {S V : Type} (sess : S) (st : ExtractionStep S V) :
    String × StepOutcome V :=
  (st.name,
   match st.run sess with
   | Except.ok v => StepOutcome.value v
   | Except.error e => StepOutcome.errMark e)

/-- Modelled from the spec: `runAll(session)` (spec §4.3) — execute every
step of the ordered list against the session, recording each step's
outcome per-view; no step's failure aborts the remaining steps. -/
def runAll {S V : Type} (steps : List (ExtractionStep S V)) (sess : S) :
    List (String × StepOutcome V) :=
  steps.map (recordStep sess)

/-! ## Theorems -/

/-- C1: the spec requires that on every exit path of a scrape attempt the
browser session's `close()` is invoked before control returns.  The code
violates this: `main`'s `catch` calls `process.exit(1)`, which terminates
the Node.js process before the `finally` block runs, so `scraper.close()`
is never invoked when `initialize` fails (no `browser.close()` in the
trace) or when `login` fails; only the fully successful path closes the
browser.  This theorem evaluates the code at the failing inputs: a
rejected browser launch and a login-page navigation timeout both end the
run with exit code 1 and zero `browser.close()` calls, while the
successful run performs exactly one. -/
theorem mainRun_close_skipped_on_failure :
    ((mainRun sampleCreds initLaunchFailEnv (allOkEnv true)).2 = MainOutcome.exited 1 ∧
     countCloses (mainRun sampleCreds initLaunchFailEnv (allOkEnv true)).1 = 0) ∧
    ((mainRun sampleCreds initOkEnv gotoFailEnv).2 = MainOutcome.exited 1 ∧
     countCloses (mainRun sampleCreds initOkEnv gotoFailEnv).1 = 0) ∧
    ((mainRun sampleCreds initOkEnv (allOkEnv true)).2 = MainOutcome.completed ∧
     countCloses (mainRun sampleCreds initOkEnv (allOkEnv true)).1 = 1) := by
  decide

/-- C2: `close()` is idempotent and safe from every session state.
Closing twice leaves exactly the state of closing once; on a
freshly-constructed scraper (browser never launched, or `launch` failed
before assigning `this.browser`) `close()` returns without issuing any
browser command and without error, thanks to the `if (this.browser)`
guard. -/
theorem close_idempotent_and_safe (s : Scraper) (o : ScraperOptions) :
    Scraper.close (Scraper.close s) = Scraper.close s ∧
    Scraper.close (Scraper.new o) = Scraper.new o ∧
    Scraper.closeRun (Scraper.new o) = (Scraper.new o, []) := by
  refine ⟨?_, rfl, rfl⟩
  cases h : s.browser <;> simp [Scraper.close, h]

/-- C4: `login` performs exactly the sequence: navigate to the fixed
login entry point (60 s bound, `networkidle2`), type the identifier,
password and security code in that order with a 50 ms per-keystroke
delay, click the submit button, and wait for post-submit settlement.
With debug off this is the exact browser-action trace; with any debug
setting it is the exact trace apart from the debug-only screenshot
captures, and the run succeeds. -/
theorem login_action_sequence (bh : Option BrowserHandle)
    (hl debug a : Bool) (c : Credentials) :
    actionsOf ((Scraper.login
        { browser := bh, page := some (), debug := false, headless := hl }
        c (allOkEnv a)).1) =
      [Action.goto loginUrl "networkidle2" 60000,
       Action.typeText "input#tzId" c.id 50,
       Action.typeText "input#tzPassword" c.password 50,
       Action.typeText "input#aidnum" c.code 50,
       Action.click submitSelector,
       Action.waitForNavigation "networkidle2"] ∧
    coreActions ((Scraper.login
        { browser := bh, page := some (), debug := debug, headless := hl }
        c (allOkEnv a)).1) =
      [Action.goto loginUrl "networkidle2" 60000,
       Action.typeText "input#tzId" c.id 50,
       Action.typeText "input#tzPassword" c.password 50,
       Action.typeText "input#aidnum" c.code 50,
       Action.click submitSelector,
       Action.waitForNavigation "networkidle2"] ∧
    (Scraper.login
        { browser := bh, page := some (), debug := debug, headless := hl }
        c (allOkEnv a)).2 = Outcome.ok := by
  exact ⟨rfl, by cases debug <;> rfl, by cases debug <;> rfl⟩

/-- C5: the initial navigation to the login page carries its own
60-second timeout (`page.goto` option, line 107), while element
interactions are governed by the page-wide default of 30 seconds set by
`setDefaultTimeout(30000)` during `initialize` (line 61); the two bounds
are distinct configuration values. -/
theorem navigation_and_default_timeouts_distinct (c : Credentials) :
    actionsOf ((Scraper.initBrowser (Scraper.new {}) initOkEnv).2.1) =
      [Action.launch (launchOptions false true), Action.newPage,
       Action.setDefaultTimeout 30000] ∧
    (actionsOf (Scraper.login readyScraper c (allOkEnv true)).1).head? =
      some (Action.goto loginUrl "networkidle2" 60000) ∧
    (60000 : Nat) ≠ 30000 := by
  exact ⟨rfl, rfl, by decide⟩

/-- C7: extraction-pipeline step isolation (spec-modelled, §4.3): the
aggregate result has one entry per step, and each entry is exactly that
step's own name with its own per-view outcome — a value when the step
succeeds, the error marker when it fails.  Entry `i` is a function of
step `i` alone, so one step's failure neither aborts nor alters any
other step's recorded result. -/
theorem extraction_pipeline_step_isolation {S V : Type}
    (steps : List (ExtractionStep S V)) (sess : S) (i : Nat) :
    (runAll steps sess).length = steps.length ∧
    (runAll steps sess)[i]? = (steps[i]?).map (recordStep sess) := by
  constructor
  · simp [runAll]
  · simp [runAll, List.getElem?_map]

/-- C6 counterexample: the code does not distinguish authentication
failures into `AuthenticationFailed` / `AuthenticationTimeout` /
`AuthenticationUIError`.  A credential rejection in which the site still
settles (`authenticated := false`) is indistinguishable from an accepted
login: the run is identical event-for-event and completes successfully,
so no rejection-class error is ever produced. -/
theorem login_rejection_reported_as_success :
    Scraper.login readyScraper sampleCreds (allOkEnv false) =
      Scraper.login readyScraper sampleCreds (allOkEnv true) ∧
    (Scraper.login readyScraper sampleCreds (allOkEnv false)).2 = Outcome.ok :=
  ⟨rfl, rfl⟩

/-- C9 counterexample: enabling debug mode does alter the
browser-driving actions.  Two `initialize` runs that differ only in the
debug flag launch the browser with different configurations (debug
forces `headless: false`, `devtools: true`, `slowMo: 50`), so the action
sequences are not identical. -/
theorem debug_alters_browser_actions :
    actionsOf ((Scraper.initBrowser
        (Scraper.new { debug := some true, headless := some false })
        initOkEnv).2.1) ≠
    actionsOf ((Scraper.initBrowser
        (Scraper.new { debug := some false, headless := some false })
        initOkEnv).2.1) := by
  decide

/-- C10: calling `login()` before a page exists throws
`'Page not initialized. Call initialize() first.'` and performs no
browser-driving action at all (the trace holds at most the debug log of
the message); the source method assigns no instance field on this path,
so the session state is untouched. -/
theorem login_requires_initialized_page (s : Scraper) (c : Credentials)
    (env : PageEnv) (h : s.page = none) :
    Scraper.login s c env =
      (logEv s.debug "Page not initialized. Call initialize() first.",
       Outcome.err "Page not initialized. Call initialize() first.") ∧
    actionsOf (Scraper.login s c env).1 = [] := by
  constructor
  · simp [Scraper.login, h, pageNotInitMsg]
  · cases hd : s.debug <;> simp [Scraper.login, h, pageNotInitMsg, hd, logEv, actionsOf]

/-- Witness for C10 at a concrete input: a freshly-constructed scraper
has no page, and `login` on it returns the exact error with an
action-free trace. -/
theorem login_requires_initialized_page_witness :
    (Scraper.new {}).page = none ∧
    (Scraper.login (Scraper.new {}) sampleCreds (allOkEnv true) =
       (logEv (Scraper.new {}).debug "Page not initialized. Call initialize() first.",
        Outcome.err "Page not initialized. Call initialize() first.") ∧
     actionsOf (Scraper.login (Scraper.new {}) sampleCreds (allOkEnv true)).1 = []) :=
  ⟨rfl, login_requires_initialized_page (Scraper.new {}) sampleCreds (allOkEnv true) rfl⟩

/-- Console-error events carry no browser action. -/
theorem actionsOf_consoleError_map (l : List String) (f : String → String) :
    actionsOf (l.map fun v => Event.consoleError (f v)) = [] := by
  induction l with
  | nil => rfl
  | cons x xs ih => simp [actionsOf]

/-- C3: whenever any of the three required credential variables is
missing (JavaScript-falsy: unset or empty), the module-level validation
(lines 11-20) prints a structured validation error and exits before any
browser work: the run's trace contains no browser launch, the process
exits with code 1, and the first output line is the validation error
header. -/
theorem missing_credentials_short_circuit (pe : String → Option String)
    (ienv : InitEnv) (penv : PageEnv)
    (h : envFalsy (pe "CREDENTIALS_ID") = true ∨
         envFalsy (pe "CREDENTIALS_PASSWORD") = true ∨
         envFalsy (pe "CREDENTIALS_CODE") = true) :
    countLaunches (programRun pe ienv penv).1 = 0 ∧
    (programRun pe ienv penv).2 = MainOutcome.exited 1 ∧
    (programRun pe ienv penv).1.head? =
      some (Event.consoleError "Error: Missing required environment variables:") := by
  have hne : missingVars pe ≠ [] := by
    rcases h with h | h | h
    · exact List.ne_nil_of_mem
        (List.mem_filter.mpr ⟨by simp [requiredEnvVars], h⟩)
    · exact List.ne_nil_of_mem
        (List.mem_filter.mpr ⟨by simp [requiredEnvVars], h⟩)
    · exact List.ne_nil_of_mem
        (List.mem_filter.mpr ⟨by simp [requiredEnvVars], h⟩)
  refine ⟨?_, ?_, ?_⟩
  · simp only [programRun, if_neg hne]
    have := actionsOf_consoleError_map (missingVars pe) (fun v => "- " ++ v)
    simp [actionsOf] at this
    simp [countLaunches, actionsOf, List.filterMap_append, this]
  · simp [programRun, if_neg hne]
  · simp [programRun, if_neg hne]

/-- Witness for C3 at a concrete input: with an empty process
environment, all three variables are missing and the program exits with
the validation error and zero launches. -/
theorem missing_credentials_short_circuit_witness :
    (envFalsy ((fun _ => (none : Option String)) "CREDENTIALS_ID") = true ∨
     envFalsy ((fun _ => (none : Option String)) "CREDENTIALS_PASSWORD") = true ∨
     envFalsy ((fun _ => (none : Option String)) "CREDENTIALS_CODE") = true) ∧
    (countLaunches (programRun (fun _ => none) initOkEnv (allOkEnv true)).1 = 0 ∧
     (programRun (fun _ => none) initOkEnv (allOkEnv true)).2 = MainOutcome.exited 1 ∧
     (programRun (fun _ => none) initOkEnv (allOkEnv true)).1.head? =
       some (Event.consoleError "Error: Missing required environment variables:")) :=
  ⟨Or.inl rfl,
   missing_credentials_short_circuit (fun _ => none) initOkEnv (allOkEnv true) (Or.inl rfl)⟩

/-- Whether a statement rejects depends only on its selector / path /
kind, never on the credential text it carries. -/
theorem opFails_eq_of_erase (env : PageEnv) {op op' : Op}
    (h : eraseOp op = eraseOp op') : opFails env op = opFails env op' := by
  cases op <;> cases op' <;> simp_all [eraseOp, opFails]

/-- The events of one statement, with credential payloads erased, depend
only on the statement's erased form. -/
theorem opEvent_map_erase_eq (debug : Bool) {op op' : Op}
    (h : eraseOp op = eraseOp op') :
    (opEvent debug op).map eraseEvent = (opEvent debug op').map eraseEvent := by
  cases op <;> cases op' <;> simp_all [eraseOp, opEvent, eraseEvent, eraseAction]

/-- Running two statement lists that agree after credential erasure
yields traces that agree after credential erasure, and equal results. -/
theorem runOps_erase (debug : Bool) (env : PageEnv) :
    ∀ l l' : List Op, l.map eraseOp = l'.map eraseOp →
      (runOps debug env l).1.map eraseEvent =
        (runOps debug env l').1.map eraseEvent ∧
      (runOps debug env l).2 = (runOps debug env l').2 := by
  intro l
  induction l with
  | nil =>
    intro l' h
    have : l' = [] := by simpa using h.symm
    subst this
    exact ⟨rfl, rfl⟩
  | cons op rest ih =>
    intro l' h
    cases l' with
    | nil => simp at h
    | cons op' rest' =>
      simp only [List.map_cons, List.cons.injEq] at h
      obtain ⟨h1, h2⟩ := h
      have hf := opFails_eq_of_erase env h1
      have he := opEvent_map_erase_eq debug h1
      obtain ⟨ihT, ihR⟩ := ih rest' h2
      cases hc : opFails env op' with
      | some m => simp [runOps, hf, hc, he]
      | none => simp [runOps, hf, hc, he, ihT, ihR]

/-- The `login` statement list is credential-independent after
erasure. -/
theorem loginOps_map_erase (debug : Bool) (c c' : Credentials) :
    (loginOps debug c).map eraseOp = (loginOps debug c').map eraseOp := by
  cases debug <;> simp [loginOps, eraseOp]

/-- `login` under two credential triples: traces agree after credential
erasure, outcomes agree. -/
theorem login_erase (s : Scraper) (c c' : Credentials) (env : PageEnv) :
    (Scraper.login s c env).1.map eraseEvent =
      (Scraper.login s c' env).1.map eraseEvent ∧
    (Scraper.login s c env).2 = (Scraper.login s c' env).2 := by
  unfold Scraper.login
  cases hp : s.page.isNone with
  | true => simp [hp]
  | false =>
    obtain ⟨hT, hR⟩ :=
      runOps_erase s.debug env (loginOps s.debug c) (loginOps s.debug c')
        (loginOps_map_erase s.debug c c')
    rcases hc : runOps s.debug env (loginOps s.debug c) with ⟨evs, r⟩
    rcases hc' : runOps s.debug env (loginOps s.debug c') with ⟨evs', r'⟩
    rw [hc, hc'] at hT hR
    simp only at hT hR
    subst hR
    cases r with
    | none => simpa [hp] using hT
    | some m => simp [hp, List.map_append, hT]

/-- C8: credential noninterference for every execution path.  For any
two credential triples and any behaviour of the browser and the remote
site, the two runs of the whole program produce identical event traces —
every debug log line, console message, error message, and screenshot
capture command with its path — once the text typed into the bank's
three form fields (the one intended outflow of the credentials) is
erased, and identical outcomes.  Hence no raw credential value appears
in any log output, error message, or diagnostic capture parameter the
program produces. -/
theorem logs_credential_noninterference (c c' : Credentials)
    (ienv : InitEnv) (penv : PageEnv) :
    (mainRun c ienv penv).1.map eraseEvent =
      (mainRun c' ienv penv).1.map eraseEvent ∧
    (mainRun c ienv penv).2 = (mainRun c' ienv penv).2 := by
  unfold mainRun
  obtain ⟨hT, hR⟩ :=
    login_erase ((Scraper.initBrowser
      (Scraper.new { debug := some true, headless := some false }) ienv).1) c c' penv
  cases hini : (Scraper.initBrowser
      (Scraper.new { debug := some true, headless := some false }) ienv).2.2 with
  | err m => simp [hini]
  | ok =>
    rcases hl : Scraper.login ((Scraper.initBrowser
        (Scraper.new { debug := some true, headless := some false }) ienv).1) c penv
      with ⟨evs, r⟩
    rcases hl' : Scraper.login ((Scraper.initBrowser
        (Scraper.new { debug := some true, headless := some false }) ienv).1) c' penv
      with ⟨evs', r'⟩
    rw [hl, hl'] at hT hR
    simp only at hT hR
    subst hR
    cases r with
    | ok => simp [hini, hl, hl', List.map_append, hT]
    | err m => simp [hini, hl, hl', List.map_append, hT]

/-- No statement's rejection behaviour depends on whether the site
accepted the credentials. -/
theorem opFails_setAuth (env : PageEnv) (b : Bool) (op : Op) :
    opFails { env with authenticated := b } op = opFails env op := by
  cases op <;> rfl

/-- Running the `try` body is independent of the site's acceptance of
the credentials. -/
theorem runOps_setAuth (debug : Bool) (env : PageEnv) (b : Bool) :
    ∀ l : List Op, runOps debug { env with authenticated := b } l = runOps debug env l := by
  intro l
  induction l with
  | nil => rfl
  | cons op rest ih =>
    cases hc : opFails env op with
    | some m => simp [runOps, opFails_setAuth, hc]
    | none => simp [runOps, opFails_setAuth, hc, ih]

/-- The login `catch` block is independent of the site's acceptance of
the credentials. -/
theorem loginCatch_setAuth (s : Scraper) (env : PageEnv) (b : Bool) (m : String) :
    loginCatch s { env with authenticated := b } m = loginCatch s env m := by
  simp [loginCatch]

/-- `login` is wholly independent of whether the submitted credentials
were accepted: the source never reads post-login page content. -/
theorem login_setAuth (s : Scraper) (c : Credentials) (env : PageEnv) (b : Bool) :
    Scraper.login s c { env with authenticated := b } = Scraper.login s c env := by
  unfold Scraper.login
  simp only [runOps_setAuth, loginCatch_setAuth]

/-- Navigation counting distributes over trace concatenation. -/
theorem countGotos_append (a b : List Event) :
    countGotos (a ++ b) = countGotos a + countGotos b := by
  simp [countGotos, actionsOf, List.filterMap_append, List.countP_append]

/-- One statement contributes one navigation to the trace exactly when
it is a `goto`. -/
theorem countGotos_opEvent (debug : Bool) (op : Op) :
    countGotos (opEvent debug op) = (if isGotoOp op then 1 else 0) := by
  cases op <;> cases debug <;>
    simp [opEvent, logEv, countGotos, actionsOf, isGoto, isGotoOp]

/-- A `try`-body run navigates at most as often as its statement list
contains `goto` statements. -/
theorem countGotos_runOps (debug : Bool) (env : PageEnv) :
    ∀ l : List Op, countGotos (runOps debug env l).1 ≤ l.countP isGotoOp := by
  intro l
  induction l with
  | nil => simp [runOps, countGotos, actionsOf]
  | cons op rest ih =>
    cases hc : opFails env op with
    | some m =>
      simp only [runOps, hc]
      rw [List.countP_cons, countGotos_opEvent]
      omega
    | none =>
      simp only [runOps, hc]
      rw [List.countP_cons, countGotos_append, countGotos_opEvent]
      omega

/-- The login `try` body contains exactly one navigation statement. -/
theorem loginOps_countP_goto (debug : Bool) (c : Credentials) :
    (loginOps debug c).countP isGotoOp = 1 := by
  cases debug <;> simp [loginOps, isGotoOp, List.countP_append, List.countP_cons]

/-- The `initialize` `catch` block adds no page navigation to the trace
it was entered with. -/
theorem countGotos_initCatch (s' : Scraper) (evs : List Event)
    (ienv : InitEnv) (m : String) :
    countGotos (initCatch s' evs ienv m).2.1 = countGotos evs := by
  unfold initCatch
  cases hd : s'.debug && s'.page.isSome with
  | false => simp [hd, countGotos_append, logEv, countGotos, actionsOf]
  | true =>
    cases hs : ienv.screenshotResult "debug-error.png" with
    | some m2 =>
      simp [hd, hs, countGotos_append, logEv, countGotos, actionsOf, isGoto]
    | none =>
      cases hdd : s'.debug <;>
        simp [hd, hs, hdd, countGotos_append, logEv, countGotos, actionsOf, isGoto]

/-- `initialize` performs no page navigation, whatever the scraper state
and environment. -/
theorem countGotos_initBrowser (s : Scraper) (ienv : InitEnv) :
    countGotos (Scraper.initBrowser s ienv).2.1 = 0 := by
  unfold Scraper.initBrowser
  cases h1 : ienv.launchResult with
  | some m =>
    simp only [h1, countGotos_initCatch]
    cases hd : s.debug <;>
      simp [countGotos_append, logEv, hd, countGotos, actionsOf, isGoto]
  | none =>
    cases h2 : ienv.newPageResult with
    | some m =>
      simp only [h1, h2, countGotos_initCatch]
      cases hd : s.debug <;>
        simp [countGotos_append, logEv, hd, countGotos, actionsOf, isGoto]
    | none =>
      simp only [h1, h2]
      cases hd : s.debug <;>
        simp [countGotos_append, logEv, hd, countGotos, actionsOf, isGoto]

/-- The login `catch` block performs no page navigation. -/
theorem countGotos_loginCatch (s : Scraper) (env : PageEnv) (m : String) :
    countGotos (loginCatch s env m).1 = 0 := by
  unfold loginCatch
  cases hd : s.debug && s.page.isSome with
  | false => simp [hd, logEv, countGotos, actionsOf]
  | true =>
    cases hs : env.screenshotResult "debug-error.png" with
    | some m2 =>
      cases hdd : s.debug <;>
        simp [hd, hs, hdd, countGotos_append, logEv, countGotos, actionsOf, isGoto]
    | none =>
      cases hdd : s.debug <;>
        simp [hd, hs, hdd, countGotos_append, logEv, countGotos, actionsOf, isGoto]

/-- One `login` call navigates at most once. -/
theorem countGotos_login (s : Scraper) (c : Credentials) (env : PageEnv) :
    countGotos (Scraper.login s c env).1 ≤ 1 := by
  unfold Scraper.login
  cases hp : s.page.isNone with
  | true =>
    cases hd : s.debug <;> simp [hp, hd, logEv, countGotos, actionsOf]
  | false =>
    have hb := countGotos_runOps s.debug env (loginOps s.debug c)
    rw [loginOps_countP_goto] at hb
    rcases hc : runOps s.debug env (loginOps s.debug c) with ⟨evs, r⟩
    rw [hc] at hb
    simp only at hb
    cases r with
    | none => simpa [hp, hc] using hb
    | some m =>
      simp only [hp, hc, Bool.false_eq_true, if_false]
      rw [countGotos_append, countGotos_loginCatch]
      omega

/-- A whole `main` run navigates at most once: no login attempt is ever
retried, whatever the first attempt's failure cause. -/
theorem countGotos_mainRun (c : Credentials) (ienv : InitEnv) (penv : PageEnv) :
    countGotos (mainRun c ienv penv).1 ≤ 1 := by
  unfold mainRun
  have hinit := countGotos_initBrowser
    (Scraper.new { debug := some true, headless := some false }) ienv
  have hlogin := countGotos_login ((Scraper.initBrowser
    (Scraper.new { debug := some true, headless := some false }) ienv).1) c penv
  have he0 : countGotos (logEv (Scraper.new
      { debug := some true, headless := some false }).debug "Debug mode enabled") = 0 := by
    simp [Scraper.new, logEv, countGotos, actionsOf]
  have hclose : countGotos (Scraper.closeRun ((Scraper.initBrowser
      (Scraper.new { debug := some true, headless := some false }) ienv).1)).2 = 0 := by
    rcases hb : ((Scraper.initBrowser
        (Scraper.new { debug := some true, headless := some false }) ienv).1).browser
      with _ | bh <;> simp [Scraper.closeRun, hb, countGotos, actionsOf, isGoto]
  cases hini : (Scraper.initBrowser
      (Scraper.new { debug := some true, headless := some false }) ienv).2.2 with
  | err m =>
    simp only [hini]
    simp only [countGotos_append]
    have hce : countGotos [Event.consoleError ("An error occurred: " ++ m)] = 0 := by
      simp [countGotos, actionsOf]
    omega
  | ok =>
    rcases hl : Scraper.login ((Scraper.initBrowser
        (Scraper.new { debug := some true, headless := some false }) ienv).1) c penv
      with ⟨evs, r⟩
    rw [hl] at hlogin
    simp only at hlogin
    cases r with
    | err m =>
      simp only [hini, hl]
      simp only [countGotos_append]
      have hce : countGotos [Event.consoleError ("An error occurred: " ++ m)] = 0 := by
        simp [countGotos, actionsOf]
      omega
    | ok =>
      simp only [hini, hl]
      simp only [countGotos_append]
      have hc1 : countGotos [Event.consoleLog "Keeping browser open for 30 seconds...",
          Event.consoleLog "Closing browser..."] = 0 := by
        simp [countGotos, actionsOf]
      have hc2 : countGotos [Event.consoleLog "Browser closed"] = 0 := by
        simp [countGotos, actionsOf]
      omega

/-- C6 (amended): the code does not classify authentication outcomes —
`login`'s whole behaviour (trace and outcome alike) is independent of
whether the remote site accepted the submitted credentials, so no
`AuthenticationFailed`-style rejection error distinct from timeout or
UI-change errors is ever produced; and no login is ever retried: a whole
run of `main` navigates to the login page at most once, whatever the
outcome of the attempt. -/
theorem login_unclassified_and_no_retry (s : Scraper) (c c2 : Credentials)
    (env : PageEnv) (b : Bool) (ienv : InitEnv) (penv : PageEnv) :
    Scraper.login s c { env with authenticated := b } = Scraper.login s c env ∧
    countGotos (mainRun c2 ienv penv).1 ≤ 1 :=
  ⟨login_setAuth s c env b, countGotos_mainRun c2 ienv penv⟩

/-- Two `initialize` runs differing only in the debug flag agree on
their browser-action sequence once launch options are normalized and
screenshots are set aside, and agree on the outcome.  (The `catch` block
never screenshots here because no page exists yet.) -/
theorem initBrowser_debug_core (hl : Option Bool) (ienv : InitEnv) :
    coreNormActions ((Scraper.initBrowser
        (Scraper.new { debug := some true, headless := hl }) ienv).2.1) =
      coreNormActions ((Scraper.initBrowser
        (Scraper.new { debug := some false, headless := hl }) ienv).2.1) ∧
    (Scraper.initBrowser
        (Scraper.new { debug := some true, headless := hl }) ienv).2.2 =
      (Scraper.initBrowser
        (Scraper.new { debug := some false, headless := hl }) ienv).2.2 := by
  unfold Scraper.initBrowser
  cases h1 : ienv.launchResult with
  | some m =>
    constructor <;>
      simp [h1, initCatch, Scraper.new, logEv, coreNormActions, coreActions,
        actionsOf, isScreenshot, normLaunch, launchOptions]
  | none =>
    cases h2 : ienv.newPageResult with
    | some m =>
      constructor <;>
        simp [h1, h2, initCatch, Scraper.new, logEv, coreNormActions, coreActions,
          actionsOf, isScreenshot, normLaunch, launchOptions]
    | none =>
      constructor <;>
        simp [h1, h2, Scraper.new, logEv, coreNormActions, coreActions,
          actionsOf, isScreenshot, normLaunch, launchOptions]

/-- Two `login` runs differing only in the debug flag agree on their
browser-action sequence once screenshots are set aside, and agree on the
outcome, provided the debug screenshots themselves succeed — at
whichever statement the attempt fails, if any. -/
theorem login_debug_core (c : Credentials) (penv : PageEnv) (sT sF : Scraper)
    (hT : sT.debug = true) (hF : sF.debug = false)
    (hp : sT.page.isSome = sF.page.isSome)
    (hs : ∀ p, penv.screenshotResult p = none) :
    coreActions (Scraper.login sT c penv).1 =
      coreActions (Scraper.login sF c penv).1 ∧
    (Scraper.login sT c penv).2 = (Scraper.login sF c penv).2 := by
  unfold Scraper.login
  cases hTP : sT.page with
  | none =>
    cases hFP : sF.page with
    | none =>
      constructor <;>
        simp [hT, hF, hTP, hFP, logEv, coreActions, actionsOf]
    | some u => rw [hTP, hFP] at hp; simp at hp
  | some u =>
    cases hFP : sF.page with
    | none => rw [hTP, hFP] at hp; simp at hp
    | some u' =>
      cases hg : penv.gotoResult with
      | some m =>
        constructor <;>
          simp [hT, hF, hTP, hFP, hg, hs, loginOps, runOps, opFails, opEvent,
            logEv, loginCatch, coreActions, actionsOf, isScreenshot]
      | none =>
        cases ht1 : penv.typeResult "input#tzId" with
        | some m =>
          constructor <;>
            simp [hT, hF, hTP, hFP, hg, ht1, hs, loginOps, runOps, opFails,
              opEvent, logEv, loginCatch, coreActions, actionsOf, isScreenshot]
        | none =>
          cases ht2 : penv.typeResult "input#tzPassword" with
          | some m =>
            constructor <;>
              simp [hT, hF, hTP, hFP, hg, ht1, ht2, hs, loginOps, runOps,
                opFails, opEvent, logEv, loginCatch, coreActions, actionsOf,
                isScreenshot]
          | none =>
            cases ht3 : penv.typeResult "input#aidnum" with
            | some m =>
              constructor <;>
                simp [hT, hF, hTP, hFP, hg, ht1, ht2, ht3, hs, loginOps,
                  runOps, opFails, opEvent, logEv, loginCatch, coreActions,
                  actionsOf, isScreenshot]
            | none =>
              cases hck : penv.clickResult with
              | some m =>
                constructor <;>
                  simp [hT, hF, hTP, hFP, hg, ht1, ht2, ht3, hck, hs,
                    loginOps, runOps, opFails, opEvent, logEv, loginCatch,
                    coreActions, actionsOf, isScreenshot]
              | none =>
                cases hw : penv.waitNavResult with
                | some m =>
                  constructor <;>
                    simp [hT, hF, hTP, hFP, hg, ht1, ht2, ht3, hck, hw, hs,
                      loginOps, runOps, opFails, opEvent, logEv, loginCatch,
                      coreActions, actionsOf, isScreenshot]
                | none =>
                  constructor <;>
                    simp [hT, hF, hTP, hFP, hg, ht1, ht2, ht3, hck, hw, hs,
                      loginOps, runOps, opFails, opEvent, logEv, loginCatch,
                      coreActions, actionsOf, isScreenshot]

/-- C9 (amended): debug mode does alter the launch configuration and
insert screenshot captures, but nothing else: for two runs of
`initialize` and `login` that differ only in the debug flag, the
sequences of browser-driving actions agree once the launch options are
normalized and the debug-only screenshot captures are set aside, and the
outcomes (success or the propagated error) are identical — provided the
debug screenshots themselves succeed. -/
theorem debug_core_behavior_preserved (hl : Option Bool) (c : Credentials)
    (ienv : InitEnv) (penv : PageEnv) (sT sF : Scraper)
    (hT : sT.debug = true) (hF : sF.debug = false)
    (hp : sT.page.isSome = sF.page.isSome)
    (hs : ∀ p, penv.screenshotResult p = none) :
    (coreNormActions ((Scraper.initBrowser
        (Scraper.new { debug := some true, headless := hl }) ienv).2.1) =
       coreNormActions ((Scraper.initBrowser
        (Scraper.new { debug := some false, headless := hl }) ienv).2.1) ∧
     (Scraper.initBrowser
        (Scraper.new { debug := some true, headless := hl }) ienv).2.2 =
       (Scraper.initBrowser
        (Scraper.new { debug := some false, headless := hl }) ienv).2.2) ∧
    (coreActions (Scraper.login sT c penv).1 =
       coreActions (Scraper.login sF c penv).1 ∧
     (Scraper.login sT c penv).2 = (Scraper.login sF c penv).2) :=
  ⟨initBrowser_debug_core hl ienv, login_debug_core c penv sT sF hT hF hp hs⟩

/-- Witness for C9 (amended) at concrete inputs: a debug and a
non-debug scraper, both with an open page, an all-resolving
environment. -/
theorem debug_core_behavior_preserved_witness :
    (({ browser := some { closed := false }, page := some (), debug := true,
        headless := false } : Scraper).debug = true ∧
     readyScraper.debug = false ∧
     ({ browser := some { closed := false }, page := some (), debug := true,
        headless := false } : Scraper).page.isSome = readyScraper.page.isSome ∧
     (∀ p, (allOkEnv true).screenshotResult p = none)) ∧
    ((coreNormActions ((Scraper.initBrowser
        (Scraper.new { debug := some true, headless := some false }) initOkEnv).2.1) =
       coreNormActions ((Scraper.initBrowser
        (Scraper.new { debug := some false, headless := some false }) initOkEnv).2.1) ∧
     (Scraper.initBrowser
        (Scraper.new { debug := some true, headless := some false }) initOkEnv).2.2 =
       (Scraper.initBrowser
        (Scraper.new { debug := some false, headless := some false }) initOkEnv).2.2) ∧
    (coreActions (Scraper.login
        { browser := some { closed := false }, page := some (), debug := true,
          headless := false } sampleCreds (allOkEnv true)).1 =
       coreActions (Scraper.login readyScraper sampleCreds (allOkEnv true)).1 ∧
     (Scraper.login
        { browser := some { closed := false }, page := some (), debug := true,
          headless := false } sampleCreds (allOkEnv true)).2 =
       (Scraper.login readyScraper sampleCreds (allOkEnv true)).2)) :=
  ⟨⟨rfl, rfl, rfl, fun _ => rfl⟩,
   debug_core_behavior_preserved (some false) sampleCreds initOkEnv (allOkEnv true)
     { browser := some { closed := false }, page := some (), debug := true,
       headless := false }
     readyScraper rfl rfl rfl (fun _ => rfl)⟩

end MercantileScraper
